import Mathlib

/-!
Shallow embedding of the labelling tool's persistence/progress subsystem
(the richer script variant: too-short flag, promotional/engagement flags).
JavaScript objects become Lean structures; the `ratingsById` object becomes
an association list with insertion-order-preserving upsert; `localStorage`
becomes an `Option SessionState` mirror; nullable strings become
`Option String`; the `s || null` coercion becomes `strOrNull`.
-/

namespace LabellingTool

/-- A JSON-ish value, enough to model the arbitrary shapes `sanitizeItem`
may receive for `transcription` and `content`. -/
inductive JsVal where
  | str (s : String)
  | num (n : Int)
  | boolean (b : Bool)
  | nul
deriving DecidableEq, Repr

/-- Model of a dataset item. `id`/`uid` are kept as their rendered strings
(`none` models a missing or null field); `transcription` and `content` keep
their raw JSON shape so sanitization is modelled faithfully; `rest` holds
any other fields spread-copied by `sanitizeItem`. -/
structure Item where
  id : Option String
  uid : Option String
  transcription : JsVal
  content : JsVal
  rest : List (String × JsVal)
deriving DecidableEq, Repr

def defaultItem : Item :=
  { id := none, uid := none, transcription := .nul, content := .nul, rest := [] }

/-- Models JavaScript `typeof v === "string"`. -/
def jsIsString : JsVal → Bool
  | .str _ => true
  | _ => false

/-- Embeds `sanitizeItem`: non-string `transcription` becomes null,
non-string `content` becomes the empty string, everything else is the
spread copy of the input. -/
def sanitizeItem (item : Item) : Item :=
  { item with
    transcription := if jsIsString item.transcription then item.transcription else .nul
    content := if jsIsString item.content then item.content else .str "" }

/-- Embeds `makeKey`. In the source, `makeKey(item)` reads the module-level
cursor `index`; here that cursor is the explicit `idx` argument:
`` `${item.id ?? index}|${item.uid ?? ""}` ``. -/
def makeKey (item : Item) (idx : Nat) : String :=
  (match item.id with
    | some s => s
    | none => toString idx) ++ "|" ++
  (match item.uid with
    | some u => u
    | none => "")

/-- A stored rating record. `isComplete := none` models the field being
absent from the object (as in records written by `saveCurrent`). -/
structure RatingRecord where
  itemIndex : Nat
  id : Option String
  uid : Option String
  category : Option String
  valence : Option String
  subcategory : Option String
  flagged : Bool
  tooShort : Bool
  promotional : Bool
  engagement : Bool
  isComplete : Option Bool
  raterId : Option String
  timestamp : String
deriving DecidableEq, Repr

/-- The module-level `state` object: `ratingsById` as an association list
in insertion order, plus the session `raterId`. -/
structure SessionState where
  ratingsById : List (String × RatingRecord)
  raterId : String
deriving DecidableEq, Repr

/-- The whole mutable world the embedded functions touch: the loaded
`dataset`, the cursor `index`, the `state` object, and the
`localStorage` mirror written by `saveState`. -/
structure AppState where
  dataset : List Item
  index : Nat
  state : SessionState
  storage : Option SessionState
deriving DecidableEq, Repr

/-- Embeds `saveState`: writes the serialized session state to storage. -/
def saveState (app : AppState) : AppState :=
  { app with storage := some app.state }

/-- Models the JavaScript coercion `s || null` on a string. -/
def strOrNull (s : String) : Option String :=
  if s = "" then none else some s

/-- Models `x || null` on a nullable string (empty string collapses to null). -/
def jsOrNull : Option String → Option String
  | some s => strOrNull s
  | none => none

/-- Property lookup `state.ratingsById[key]` on the association list. -/
def findRecord (k : String) : List (String × RatingRecord) → Option RatingRecord
  | [] => none
  | (k', v) :: rest => if k = k' then some v else findRecord k rest

/-- Property assignment `state.ratingsById[key] = record`: replaces the
binding in place when the key exists, otherwise appends it. -/
def upsert (k : String) (v : RatingRecord) : List (String × RatingRecord) → List (String × RatingRecord)
  | [] => [(k, v)]
  | (k', v') :: rest => if k = k' then (k, v) :: rest else (k', v') :: upsert k v rest

/-- The truthiness test `r && r.isComplete` used by the progress loop:
true exactly when a record exists at the key and its `isComplete` field is
present and true. -/
def completedAt (ratings : List (String × RatingRecord)) (k : String) : Bool :=
  match findRecord k ratings with
  | some r =>
    match r.isComplete with
    | some true => true
    | _ => false
  | none => false

/-- The form-control state `getFormValues` and the save functions read:
the radio group values (empty string when nothing is selected, matching
`form.category.value || ""`) and the four checkboxes. -/
structure FormState where
  categoryValue : String
  valenceValue : String
  subcategoryValue : String
  flagged : Bool
  tooShort : Bool
  promotional : Bool
  engagement : Bool
deriving DecidableEq, Repr

/-- The record `getFormValues` returns. -/
structure FormValues where
  category : String
  valence : String
  subcategory : String
  needsSub : Bool
deriving DecidableEq, Repr

/-- The regex test `/[23]$/.test(category)`: the category string ends in
the character 2 or 3. -/
def needsSubcategory (category : String) : Bool :=
  match category.data.getLast? with
  | some c => c = '2' || c = '3'
  | none => false

/-- Embeds `getFormValues`. -/
def getFormValues (form : FormState) : FormValues :=
  let category := form.categoryValue
  let valence := form.valenceValue
  let needsSub := needsSubcategory category
  let subcategory := if needsSub then form.subcategoryValue else ""
  { category := category, valence := valence, subcategory := subcategory, needsSub := needsSub }

/-- The structured result `{ok, message?}` returned by `validate` and
`saveCurrent`. -/
inductive SaveResult where
  | ok
  | err (message : String)
deriving DecidableEq, Repr

/-- Embeds `validate`, including the too-short short circuit that reads the
checkbox directly. -/
def validate (tooShortChecked : Bool) (values : FormValues) : SaveResult :=
  if tooShortChecked then .ok
  else if values.category = "" then .err "Please select a Category."
  else if values.valence = "" then .err "Please select a Valence."
  else if values.needsSub = true ∧ values.subcategory = "" then .err "Please select a Subcategory."
  else .ok

/-- Embeds `saveCurrent`. `now` stands for the timestamp produced by
`melbourneNowISO()` at the call. The record it assembles has no
`isComplete` field. -/
def saveCurrent (app : AppState) (form : FormState) (now : String) : AppState × SaveResult :=
  if app.dataset.length = 0 then (app, .err "No dataset")
  else
    let item := app.dataset.getD app.index defaultItem
    let key := makeKey item app.index
    let values := getFormValues form
    match validate form.tooShort values with
    | .err m => (app, .err m)
    | .ok =>
      let isTooShort := form.tooShort
      let record : RatingRecord :=
        { itemIndex := app.index
          id := item.id
          uid := item.uid
          category := if isTooShort then none else some values.category
          valence := if isTooShort then none else some values.valence
          subcategory := if isTooShort then none else if values.needsSub then some values.subcategory else none
          flagged := form.flagged
          tooShort := form.tooShort
          promotional := form.promotional
          engagement := form.engagement
          isComplete := none
          raterId := strOrNull app.state.raterId
          timestamp := now }
      (saveState { app with state := { app.state with ratingsById := upsert key record app.state.ratingsById } }, .ok)

/-- Embeds `savePartialProgress`: never rejects, derives `isComplete`, and
nulls the coded fields when the too-short checkbox is checked. -/
def savePartialProgress (app : AppState) (form : FormState) (now : String) : AppState :=
  if app.dataset.length = 0 then app
  else
    let item := app.dataset.getD app.index defaultItem
    let key := makeKey item app.index
    let values := getFormValues form
    let isComplete :=
      (values.category != "" && values.valence != "" &&
        (!values.needsSub || values.subcategory != "")) || form.tooShort
    let isTooShort := form.tooShort
    let record : RatingRecord :=
      { itemIndex := app.index
        id := item.id
        uid := item.uid
        category := if isTooShort then none else strOrNull values.category
        valence := if isTooShort then none else strOrNull values.valence
        subcategory := if isTooShort then none else if values.needsSub then strOrNull values.subcategory else none
        flagged := form.flagged
        tooShort := form.tooShort
        promotional := form.promotional
        engagement := form.engagement
        isComplete := some isComplete
        raterId := strOrNull app.state.raterId
        timestamp := now }
    saveState { app with state := { app.state with ratingsById := upsert key record app.state.ratingsById } }

/-- The `for` loop of `updateProgress`, accumulating `done`. Each
iteration keys the item with the module-level cursor `idx`, exactly as the
source's `makeKey(dataset[i])` reads the global `index`. -/
def progressLoop (idx : Nat) (ratings : List (String × RatingRecord)) : List Item → Nat → Nat
  | [], done => done
  | item :: rest, done =>
    progressLoop idx ratings rest (if completedAt ratings (makeKey item idx) then done + 1 else done)

/-- The `{done, total, percent}` triple the progress tracker derives. -/
structure Progress where
  done : Nat
  total : Nat
  percent : Nat
deriving DecidableEq, Repr

/-- Exact mathematical rounding of `p / q` half up, `floor(p / q + 1 / 2)`,
the value the spec's formula `round(done / total * 100)` denotes when read
over the rationals. Kept for comparison with the double-precision
evaluation the code actually performs. -/
def roundDiv (p q : Nat) : Nat :=
  (2 * p + q) / (2 * q)

/-- Number of binary digits of `n`, with explicit fuel so the kernel can
evaluate it (`bitlen n = bitlenFuel n n`). -/
def bitlenFuel : Nat → Nat → Nat
  | 0, _ => 0
  | fuel + 1, n => if n = 0 then 0 else bitlenFuel fuel (n / 2) + 1

/-- Number of binary digits of `n` (0 for 0). -/
def bitlen (n : Nat) : Nat :=
  bitlenFuel n n

/-- Round the exact value `(d + ε) * 2 ^ e` (where `ε` is 0 when `sticky`
is false and some positive amount below 1 when it is true) to a binary64
significand: at most 53 significant bits, round to nearest, ties to even.
The result `(m, f)` denotes `m * 2 ^ f`. -/
def roundSig53 (d : Nat) (sticky : Bool) (e : Int) : Nat × Int :=
  if bitlen d ≤ 53 then (d, e)
  else
    let k := bitlen d - 53
    let head := d / 2 ^ k
    let tail := d % 2 ^ k
    let half := 2 ^ (k - 1)
    let up : Bool :=
      if half < tail then true
      else if tail < half then false
      else if sticky then true
      else head % 2 == 1
    let m0 := if up then head + 1 else head
    if m0 = 2 ^ 53 then (2 ^ 52, e + (k : Int) + 1) else (m0, e + (k : Int))

/-- IEEE-754 binary64 division `p / q` of two exactly representable
naturals: the correctly rounded (nearest, ties to even) double, as a
significand/exponent pair. -/
def dblDiv (p q : Nat) : Nat × Int :=
  let s := 54 + bitlen q
  let N := p * 2 ^ s
  roundSig53 (N / q) (N % q != 0) (-(s : Int))

/-- IEEE-754 binary64 multiplication of the double `x` by the exactly
representable constant 100, correctly rounded. -/
def dblMul100 (x : Nat × Int) : Nat × Int :=
  roundSig53 (100 * x.1) false x.2

/-- `Math.round` on the nonnegative double `x` (exact value
`x.1 * 2 ^ x.2`): nearest integer, ties toward positive infinity. -/
def jsMathRound (x : Nat × Int) : Nat :=
  if 0 ≤ x.2 then x.1 * 2 ^ x.2.toNat
  else
    let k := (-x.2).toNat
    let ip := x.1 / 2 ^ k
    let fr := x.1 % 2 ^ k
    if 2 ^ (k - 1) ≤ fr then ip + 1 else ip

/-- The source expression `Math.round((done / total) * 100)` evaluated in
IEEE-754 binary64 arithmetic as JavaScript does: divide, multiply by 100
(each correctly rounded to double precision), then round to an integer. -/
def jsPercentExpr (done total : Nat) : Nat :=
  jsMathRound (dblMul100 (dblDiv done total))

/-- Embeds `updateProgress` (its DOM writes dropped): counts completed
records over the dataset and derives the percentage with the
double-precision evaluation of `Math.round((done / total) * 100)`. -/
def updateProgress (dataset : List Item) (idx : Nat) (ratings : List (String × RatingRecord)) : Progress :=
  let total := dataset.length
  let done := progressLoop idx ratings dataset 0
  let pct := if total = 0 then 0 else jsPercentExpr done total
  { done := done, total := total, percent := pct }

/-- One iteration of `propagateRaterIdAcrossRatings`: overwrite the
record's `raterId` when it differs from the current session value. -/
def stampRater (current : Option String) (r : RatingRecord) : RatingRecord :=
  if r.raterId ≠ current then { r with raterId := current } else r

/-- Embeds `propagateRaterIdAcrossRatings`: walks every record, stamping
`state.raterId || null` onto it. -/
def propagateRaterIdAcrossRatings (st : SessionState) : SessionState :=
  let current := strOrNull st.raterId
  { st with ratingsById := st.ratingsById.map (fun p => (p.1, stampRater current p.2)) }

/-- Models `String.prototype.trim`: strip whitespace from both ends. -/
def jsTrim (s : String) : String :=
  ⟨((s.data.dropWhile Char.isWhitespace).reverse.dropWhile Char.isWhitespace).reverse⟩

/-- Embeds the `raterIdInput` input handler: trim the field value into
`state.raterId`, propagate it across all records, persist. -/
def onRaterIdInput (v : String) (app : AppState) : AppState :=
  let st0 := { app.state with raterId := jsTrim v }
  saveState { app with state := propagateRaterIdAcrossRatings st0 }

/-- Embeds `go(delta)`: clamp `index + delta` into `[0, length - 1]`,
doing nothing on an empty dataset or when the clamped target equals the
current cursor. -/
def go (app : AppState) (delta : Int) : AppState :=
  if app.dataset.length = 0 then app
  else
    let next : Int := min (max ((app.index : Int) + delta) 0) ((app.dataset.length : Int) - 1)
    if next = (app.index : Int) then app
    else { app with index := next.toNat }

/-- The export payload assembled by `exportJson` (blob/download plumbing
dropped). -/
structure ExportPayload where
  raterId : Option String
  createdAt : String
  datasetSize : Nat
  ratings : List RatingRecord
deriving DecidableEq, Repr

/-- Embeds `exportJson`: each exported record is the stored record with
`raterId` replaced by `state.raterId || r.raterId || null`. `now` stands
for `melbourneNowISO()`. -/
def exportJson (app : AppState) (now : String) : ExportPayload :=
  { raterId := strOrNull app.state.raterId
    createdAt := now
    datasetSize := app.dataset.length
    ratings := app.state.ratingsById.map (fun p =>
      { p.2 with
        raterId :=
          if app.state.raterId = "" then jsOrNull p.2.raterId
          else some app.state.raterId }) }

/-- Modelled from the spec (for comparison only, not from the source): the
progress count as the claim describes it, deriving the key of the item at
position `i` with `i` itself as the fallback index. -/
def specProgressDoneByPosition (dataset : List Item) (ratings : List (String × RatingRecord)) : Nat :=
  (List.range dataset.length).countP
    (fun i => completedAt ratings (makeKey (dataset.getD i defaultItem) i))

/-- Concrete item for the percent counterexample: item `i` carries an id
of `i` letters a, giving the items pairwise distinct keys. -/
def cexItem (i : Nat) : Item :=
  ⟨some (String.mk (List.replicate i 'a')), none, .nul, .str "", []⟩

/-- A 40-item dataset for the percent counterexample. -/
def cexDataset : List Item :=
  (List.range 40).map cexItem

/-- A complete rating record for the percent counterexample. -/
def cexCompleteRecord : RatingRecord :=
  ⟨0, none, none, some "1", some "p", none, false, false, false, false, some true, none, "t"⟩

/-- A store marking the first 23 items of `cexDataset` complete. -/
def cexStore : List (String × RatingRecord) :=
  (List.range 23).map (fun i => (String.mk (List.replicate i 'a') ++ "|", cexCompleteRecord))

/-- Upserting a key and then looking it up yields the inserted record. -/
lemma findRecord_upsert_self (k : String) (v : RatingRecord) (l : List (String × RatingRecord)) :
    findRecord k (upsert k v l) = some v := by
  induction l with
  | nil => simp [upsert, findRecord]
  | cons p l ih =>
    obtain ⟨k', v'⟩ := p
    by_cases h : k = k'
    · simp [upsert, findRecord, h]
    · simp [upsert, findRecord, h, ih]

/-- Lookup commutes with a value-only map of the association list. -/
lemma findRecord_map (k : String) (f : RatingRecord → RatingRecord) (l : List (String × RatingRecord)) :
    findRecord k (l.map (fun p => (p.1, f p.2))) = (findRecord k l).map f := by
  induction l with
  | nil => rfl
  | cons p l ih =>
    by_cases h : k = p.1
    · simp [findRecord, h]
    · simp [findRecord, h, ih]

/-- The propagation step always leaves the current value on the record. -/
lemma stampRater_raterId (c : Option String) (r : RatingRecord) :
    (stampRater c r).raterId = c := by
  unfold stampRater
  by_cases h : r.raterId = c
  · simp [h]
  · simp [h]

/-- The progress loop computes its accumulator plus the count of items
whose keyed record is complete. -/
lemma progressLoop_eq_countP (idx : Nat) (ratings : List (String × RatingRecord))
    (l : List Item) (n : Nat) :
    progressLoop idx ratings l n =
      n + l.countP (fun item => completedAt ratings (makeKey item idx)) := by
  induction l generalizing n with
  | nil => simp [progressLoop]
  | cons a l ih =>
    rw [progressLoop, ih, List.countP_cons]
    by_cases h : completedAt ratings (makeKey a idx) = true
    · simp [h]; omega
    · simp [h]

/-- Any record looked up after the rater-id input handler carries the
trimmed session value (empty collapsing to null). -/
lemma onRaterIdInput_lookup (app : AppState) (v : String) (k : String) (r : RatingRecord)
    (h : findRecord k (onRaterIdInput v app).state.ratingsById = some r) :
    r.raterId = strOrNull (jsTrim v) := by
  simp only [onRaterIdInput, propagateRaterIdAcrossRatings, saveState] at h
  rw [findRecord_map] at h
  cases hf : findRecord k app.state.ratingsById with
  | none => rw [hf] at h; simp at h
  | some r0 =>
    rw [hf] at h
    rw [Option.map_some'] at h
    rw [← Option.some_inj.mp h]
    exact stampRater_raterId _ _

/-- C8: sanitization is idempotent — sanitizing twice equals sanitizing
once — and sanitization leaves every field other than `transcription` and
`content` unchanged. -/
theorem sanitizeItem_idempotent (x : Item) :
    sanitizeItem (sanitizeItem x) = sanitizeItem x ∧
    (sanitizeItem x).id = x.id ∧ (sanitizeItem x).uid = x.uid ∧
    (sanitizeItem x).rest = x.rest := by
  refine ⟨?_, rfl, rfl, rfl⟩
  cases ht : x.transcription <;> cases hc : x.content <;>
    simp [sanitizeItem, jsIsString, ht, hc]

/-- C10: with an empty dataset, strict save returns the "No dataset"
error and partial autosave returns immediately, both leaving the whole
application state (rating store, rater id, durable storage) unchanged. -/
theorem emptyDataset_saves_noop (app : AppState) (form : FormState) (now : String)
    (h : app.dataset = []) :
    saveCurrent app form now = (app, .err "No dataset") ∧
    savePartialProgress app form now = app := by
  have hlen : app.dataset.length = 0 := by simp [h]
  exact ⟨by simp [saveCurrent, hlen], by simp [savePartialProgress, hlen]⟩

/-- C10 witness: the empty-dataset no-op at a concrete state. -/
theorem emptyDataset_saves_noop_witness :
    saveCurrent ⟨[], 0, ⟨[], ""⟩, none⟩ ⟨"1", "p", "", false, false, false, false⟩ "t" =
      (⟨[], 0, ⟨[], ""⟩, none⟩, .err "No dataset") ∧
    savePartialProgress ⟨[], 0, ⟨[], ""⟩, none⟩ ⟨"1", "p", "", false, false, false, false⟩ "t" =
      ⟨[], 0, ⟨[], ""⟩, none⟩ :=
  emptyDataset_saves_noop ⟨[], 0, ⟨[], ""⟩, none⟩ ⟨"1", "p", "", false, false, false, false⟩ "t" rfl

/-- C6: navigation never leaves `[0, length - 1]` — on an empty dataset
`go` is the identity, from an in-range cursor any `delta` lands in range,
and `go` with delta 0 leaves the cursor unchanged. -/
theorem go_clamps_cursor (app : AppState) (delta : Int) :
    (app.dataset.length = 0 → go app delta = app) ∧
    (app.index < app.dataset.length → (go app delta).index < app.dataset.length) ∧
    (app.index < app.dataset.length → (go app 0).index = app.index) := by
  refine ⟨fun h => by simp [go, h], fun h => ?_, fun h => ?_⟩
  · have hlen : ¬ app.dataset.length = 0 := by omega
    simp only [go, hlen, if_false]
    by_cases he :
        min (max ((app.index : Int) + delta) 0) ((app.dataset.length : Int) - 1) = (app.index : Int)
    · simpa [he] using h
    · simp only [he, if_false]
      have h1 : min (max ((app.index : Int) + delta) 0) ((app.dataset.length : Int) - 1) ≤
          (app.dataset.length : Int) - 1 := min_le_right _ _
      have h2 : (0 : Int) ≤ min (max ((app.index : Int) + delta) 0) ((app.dataset.length : Int) - 1) :=
        le_min (le_max_right _ _) (by omega)
      omega
  · have hlen : ¬ app.dataset.length = 0 := by omega
    have hmax : max ((app.index : Int) + 0) 0 = (app.index : Int) := by
      rw [max_eq_left] <;> omega
    have hmin : min ((app.index : Int)) ((app.dataset.length : Int) - 1) = (app.index : Int) := by
      rw [min_eq_left]; omega
    simp [go, hlen, hmax, hmin]

/-- C6 witness: clamping at a concrete one-item dataset. -/
theorem go_clamps_cursor_witness :
    go ⟨[], 0, ⟨[], ""⟩, none⟩ 3 = ⟨[], 0, ⟨[], ""⟩, none⟩ ∧
    (go ⟨[defaultItem], 0, ⟨[], ""⟩, none⟩ 5).index < 1 ∧
    (go ⟨[defaultItem], 0, ⟨[], ""⟩, none⟩ 0).index = 0 :=
  ⟨(go_clamps_cursor ⟨[], 0, ⟨[], ""⟩, none⟩ 3).1 rfl,
   (go_clamps_cursor ⟨[defaultItem], 0, ⟨[], ""⟩, none⟩ 5).2.1 (by decide),
   (go_clamps_cursor ⟨[defaultItem], 0, ⟨[], ""⟩, none⟩ 5).2.2 (by decide)⟩

/-- C5 counterexample: a 40-item dataset with 23 complete records. The
double-precision evaluation of `(23 / 40) * 100` falls just below 57.5,
so the program's `Math.round` yields 57, while the claim's exact
`round(done / total * 100)` is 58. -/
theorem updateProgress_percent_counterexample :
    (updateProgress cexDataset 0 cexStore).done = 23 ∧
    (updateProgress cexDataset 0 cexStore).total = 40 ∧
    (updateProgress cexDataset 0 cexStore).percent = 57 ∧
    roundDiv (100 * 23) 40 = 58 := by
  decide

/-- C5 amended: the progress computation returns total = dataset length,
done = the count of items whose record under the derived key has a
present and true `isComplete`, and percent = `Math.round((done / total) *
100)` evaluated in IEEE-754 double precision as the source does — which
can land on the other side of a half-integer than the exact rational
rounding (23 of 40 gives 57, not 58) — with percent = 0 for an empty
dataset. -/
theorem updateProgress_contract (d : List Item) (idx : Nat)
    (ratings : List (String × RatingRecord)) :
    (updateProgress d idx ratings).total = d.length ∧
    (updateProgress d idx ratings).done =
      d.countP (fun item => completedAt ratings (makeKey item idx)) ∧
    (updateProgress d idx ratings).percent =
      (if d.length = 0 then 0
       else jsPercentExpr ((updateProgress d idx ratings).done) d.length) := by
  refine ⟨rfl, ?_, rfl⟩
  simpa using progressLoop_eq_countP idx ratings d 0

/-- C2 counterexample: with two id-less items and the cursor at 0, the
progress loop keys the item at position 1 with the cursor 0 rather than
its own position 1, so a complete record stored under the key "1|" (the
key the claim prescribes for that item) is never found: the claim's
by-position count is 1 while the code's count is 0. -/
theorem makeKey_call_sites_counterexample :
    specProgressDoneByPosition
      [⟨none, none, .nul, .str "a", []⟩, ⟨none, none, .nul, .str "b", []⟩]
      [("1|", ⟨1, none, none, some "1", some "p", none, false, false, false, false,
        some true, none, "t"⟩)] = 1 ∧
    (updateProgress
      [⟨none, none, .nul, .str "a", []⟩, ⟨none, none, .nul, .str "b", []⟩] 0
      [("1|", ⟨1, none, none, some "1", some "p", none, false, false, false, false,
        some true, none, "t"⟩)]).done = 0 := by
  decide

/-- C2 amended: key derivation returns `"{id ?? fallback}|{uid ?? ''}"`
where the fallback is the module-level cursor at call time (deterministic
and total by construction), and the progress computation keys every item
it iterates over with that one cursor value — not with each item's own
position. -/
theorem makeKey_contract (item : Item) (idx : Nat) (d : List Item)
    (ratings : List (String × RatingRecord)) :
    makeKey item idx = item.id.getD (toString idx) ++ "|" ++ item.uid.getD "" ∧
    (updateProgress d idx ratings).done =
      d.countP (fun it => completedAt ratings (makeKey it idx)) := by
  constructor
  · cases hid : item.id <;> cases huid : item.uid <;> simp [makeKey, hid, huid]
  · simpa using progressLoop_eq_countP idx ratings d 0

/-- C1: any save performed with the too-short flag checked (strict or
partial) writes a record whose category, valence and subcategory are all
null regardless of form contents; the partial record additionally has
`isComplete` present and true and `tooShort` true, while the strict record
carries no `isComplete` field. -/
theorem tooShort_save_nulls_fields (app : AppState) (form : FormState) (now : String)
    (hts : form.tooShort = true) (hne : app.dataset ≠ []) :
    (∃ rec : RatingRecord,
      findRecord (makeKey (app.dataset.getD app.index defaultItem) app.index)
        ((saveCurrent app form now).1).state.ratingsById = some rec ∧
      rec.category = none ∧ rec.valence = none ∧ rec.subcategory = none ∧
      rec.tooShort = true) ∧
    (∃ rec : RatingRecord,
      findRecord (makeKey (app.dataset.getD app.index defaultItem) app.index)
        (savePartialProgress app form now).state.ratingsById = some rec ∧
      rec.category = none ∧ rec.valence = none ∧ rec.subcategory = none ∧
      rec.tooShort = true ∧ rec.isComplete = some true) := by
  have hlen : ¬ app.dataset.length = 0 := by simpa [List.length_eq_zero] using hne
  constructor
  · simp [saveCurrent, hlen, validate, hts, saveState, findRecord_upsert_self]
  · simp [savePartialProgress, hlen, hts, saveState, findRecord_upsert_self]

/-- C1 witness: checking the too-short flag with category "1" still in
the form yields fully nulled coded fields at a concrete state. -/
theorem tooShort_save_nulls_fields_witness :
    (∃ rec : RatingRecord,
      findRecord (makeKey ((AppState.mk [⟨some "1", none, .nul, .str "a", []⟩] 0 ⟨[], ""⟩ none).dataset.getD 0 defaultItem) 0)
        ((saveCurrent ⟨[⟨some "1", none, .nul, .str "a", []⟩], 0, ⟨[], ""⟩, none⟩
          ⟨"1", "p", "", false, true, false, false⟩ "t").1).state.ratingsById = some rec ∧
      rec.category = none ∧ rec.valence = none ∧ rec.subcategory = none ∧
      rec.tooShort = true) ∧
    (∃ rec : RatingRecord,
      findRecord (makeKey ((AppState.mk [⟨some "1", none, .nul, .str "a", []⟩] 0 ⟨[], ""⟩ none).dataset.getD 0 defaultItem) 0)
        (savePartialProgress ⟨[⟨some "1", none, .nul, .str "a", []⟩], 0, ⟨[], ""⟩, none⟩
          ⟨"1", "p", "", false, true, false, false⟩ "t").state.ratingsById = some rec ∧
      rec.category = none ∧ rec.valence = none ∧ rec.subcategory = none ∧
      rec.tooShort = true ∧ rec.isComplete = some true) :=
  tooShort_save_nulls_fields ⟨[⟨some "1", none, .nul, .str "a", []⟩], 0, ⟨[], ""⟩, none⟩
    ⟨"1", "p", "", false, true, false, false⟩ "t" rfl (by decide)

/-- C3: the rater-id input handler stores the (trimmed, nonempty) new
value as the session rater id and stamps it onto every stored record;
consequently after setting "r1" and then "r2" every record carries "r2"
and none retains "r1". -/
theorem setRaterId_propagates (app : AppState) (v : String)
    (hv : jsTrim v = v) (hne : v ≠ "") :
    (onRaterIdInput v app).state.raterId = v ∧
    (∀ k r, findRecord k (onRaterIdInput v app).state.ratingsById = some r →
      r.raterId = some v) ∧
    (∀ k r, findRecord k (onRaterIdInput "r2" (onRaterIdInput "r1" app)).state.ratingsById = some r →
      r.raterId = some "r2" ∧ r.raterId ≠ some "r1") := by
  refine ⟨?_, ?_, ?_⟩
  · simp [onRaterIdInput, saveState, propagateRaterIdAcrossRatings, hv]
  · intro k r h
    have hr := onRaterIdInput_lookup app v k r h
    rw [hv] at hr
    rw [hr, strOrNull, if_neg hne]
  · intro k r h
    have hr := onRaterIdInput_lookup _ "r2" k r h
    have ht : strOrNull (jsTrim "r2") = some "r2" := by decide
    rw [ht] at hr
    exact ⟨hr, by rw [hr]; decide⟩

/-- C3 witness: stamping a concrete store holding one record whose
raterId was "x". -/
theorem setRaterId_propagates_witness :
    (onRaterIdInput "r1" ⟨[], 0, ⟨[("k", ⟨0, none, none, none, none, none, false, false,
      false, false, none, some "x", "t"⟩)], ""⟩, none⟩).state.raterId = "r1" ∧
    (∀ k r, findRecord k (onRaterIdInput "r1" ⟨[], 0, ⟨[("k", ⟨0, none, none, none, none, none,
      false, false, false, false, none, some "x", "t"⟩)], ""⟩, none⟩).state.ratingsById = some r →
      r.raterId = some "r1") ∧
    (∀ k r, findRecord k (onRaterIdInput "r2" (onRaterIdInput "r1" ⟨[], 0, ⟨[("k", ⟨0, none, none,
      none, none, none, false, false, false, false, none, some "x", "t"⟩)], ""⟩,
      none⟩)).state.ratingsById = some r →
      r.raterId = some "r2" ∧ r.raterId ≠ some "r1") :=
  setRaterId_propagates ⟨[], 0, ⟨[("k", ⟨0, none, none, none, none, none, false, false,
    false, false, none, some "x", "t"⟩)], ""⟩, none⟩ "r1" (by decide) (by decide)

/-- C4: with the too-short flag unchecked, a strict save on a form
missing a required field returns a structured error and changes nothing:
the returned application state (rating store, rater id, durable storage)
is exactly the input state. -/
theorem strictSave_rejects_invalid (app : AppState) (form : FormState) (now : String)
    (hts : form.tooShort = false)
    (hmiss : (getFormValues form).category = "" ∨ (getFormValues form).valence = "" ∨
      ((getFormValues form).needsSub = true ∧ (getFormValues form).subcategory = "")) :
    (saveCurrent app form now).1 = app ∧ ∃ m, (saveCurrent app form now).2 = .err m := by
  by_cases hlen : app.dataset.length = 0
  · exact ⟨by simp [saveCurrent, hlen], ⟨"No dataset", by simp [saveCurrent, hlen]⟩⟩
  · have hval : ∃ m, validate form.tooShort (getFormValues form) = .err m := by
      unfold validate
      simp only [hts, Bool.false_eq_true, if_false]
      split_ifs with h1 h2 h3
      · exact ⟨_, rfl⟩
      · exact ⟨_, rfl⟩
      · exact ⟨_, rfl⟩
      · rcases hmiss with h | h | h
        · exact absurd h h1
        · exact absurd h h2
        · exact absurd h h3
    obtain ⟨m, hm⟩ := hval
    exact ⟨by simp [saveCurrent, hlen, hm], ⟨m, by simp [saveCurrent, hlen, hm]⟩⟩

/-- C4 witness: an empty form (no category) on a one-item dataset is
rejected without touching the state. -/
theorem strictSave_rejects_invalid_witness :
    (saveCurrent ⟨[⟨some "1", none, .nul, .str "a", []⟩], 0, ⟨[], ""⟩, none⟩
      ⟨"", "", "", false, false, false, false⟩ "t").1 =
      ⟨[⟨some "1", none, .nul, .str "a", []⟩], 0, ⟨[], ""⟩, none⟩ ∧
    ∃ m, (saveCurrent ⟨[⟨some "1", none, .nul, .str "a", []⟩], 0, ⟨[], ""⟩, none⟩
      ⟨"", "", "", false, false, false, false⟩ "t").2 = .err m :=
  strictSave_rejects_invalid ⟨[⟨some "1", none, .nul, .str "a", []⟩], 0, ⟨[], ""⟩, none⟩
    ⟨"", "", "", false, false, false, false⟩ "t" rfl (Or.inl rfl)

/-- C7 counterexample: a store holding one record whose own raterId is
"a", exported under session rater id "b", yields an exported record
stamped "b" — the session value overrides the record's own value, contrary
to the claim that the stored value wins when present. -/
theorem exportJson_counterexample :
    (exportJson ⟨[], 0, ⟨[("k", ⟨0, none, none, none, none, none, false, false, false, false,
        none, some "a", "t"⟩)], "b"⟩, none⟩ "now").ratings.map (fun r => r.raterId) =
      [some "b"] ∧
    (some "b" : Option String) ≠ some "a" := by
  decide

/-- C7 amended: export stamps the current session rater id onto every
record whenever the session id is nonempty; a record's own raterId (with
empty collapsing to null) survives only when the session id is empty. The
payload also carries the supplied creation timestamp and the dataset
size, and every other field of each record is exported unchanged. -/
theorem exportJson_contract (app : AppState) (now : String) (i : Nat) (k : String)
    (r : RatingRecord) (h : app.state.ratingsById[i]? = some (k, r)) :
    (exportJson app now).createdAt = now ∧
    (exportJson app now).datasetSize = app.dataset.length ∧
    (exportJson app now).ratings.length = app.state.ratingsById.length ∧
    ∃ r', (exportJson app now).ratings[i]? = some r' ∧
      r'.raterId = (if app.state.raterId = "" then jsOrNull r.raterId
        else some app.state.raterId) ∧
      r'.category = r.category ∧ r'.valence = r.valence ∧ r'.subcategory = r.subcategory ∧
      r'.isComplete = r.isComplete ∧ r'.itemIndex = r.itemIndex ∧ r'.tooShort = r.tooShort ∧
      r'.timestamp = r.timestamp := by
  refine ⟨rfl, rfl, by simp [exportJson], ?_⟩
  refine ⟨{ r with raterId := (if app.state.raterId = "" then jsOrNull r.raterId
    else some app.state.raterId) }, ?_, rfl, rfl, rfl, rfl, rfl, rfl, rfl, rfl⟩
  show (app.state.ratingsById.map _)[i]? = _
  rw [List.getElem?_map, h, Option.map_some']

/-- C7 amended witness: the per-index export correspondence at a concrete
one-record store. -/
theorem exportJson_contract_witness :
    (exportJson ⟨[], 0, ⟨[("k", ⟨0, none, none, none, none, none, false, false, false, false,
        none, some "a", "t"⟩)], "b"⟩, none⟩ "now").createdAt = "now" ∧
    (exportJson ⟨[], 0, ⟨[("k", ⟨0, none, none, none, none, none, false, false, false, false,
        none, some "a", "t"⟩)], "b"⟩, none⟩ "now").datasetSize =
      (AppState.mk [] 0 ⟨[("k", ⟨0, none, none, none, none, none, false, false, false, false,
        none, some "a", "t"⟩)], "b"⟩ none).dataset.length ∧
    (exportJson ⟨[], 0, ⟨[("k", ⟨0, none, none, none, none, none, false, false, false, false,
        none, some "a", "t"⟩)], "b"⟩, none⟩ "now").ratings.length =
      (AppState.mk [] 0 ⟨[("k", ⟨0, none, none, none, none, none, false, false, false, false,
        none, some "a", "t"⟩)], "b"⟩ none).state.ratingsById.length ∧
    ∃ r', (exportJson ⟨[], 0, ⟨[("k", ⟨0, none, none, none, none, none, false, false, false,
        false, none, some "a", "t"⟩)], "b"⟩, none⟩ "now").ratings[0]? = some r' ∧
      r'.raterId = (if (AppState.mk [] 0 ⟨[("k", ⟨0, none, none, none, none, none, false, false,
        false, false, none, some "a", "t"⟩)], "b"⟩ none).state.raterId = ""
        then jsOrNull (some "a")
        else some (AppState.mk [] 0 ⟨[("k", ⟨0, none, none, none, none, none, false, false,
          false, false, none, some "a", "t"⟩)], "b"⟩ none).state.raterId) ∧
      r'.category = none ∧ r'.valence = none ∧ r'.subcategory = none ∧
      r'.isComplete = none ∧ r'.itemIndex = 0 ∧ r'.tooShort = false ∧
      r'.timestamp = "t" :=
  exportJson_contract ⟨[], 0, ⟨[("k", ⟨0, none, none, none, none, none, false, false, false,
    false, none, some "a", "t"⟩)], "b"⟩, none⟩ "now" 0 "k"
    ⟨0, none, none, none, none, none, false, false, false, false, none, some "a", "t"⟩ rfl

/-- C9: a successful strict save stores a record with no `isComplete`
field at the current item's key, so that key fails the progress loop's
completion test and an item keyed by it contributes nothing to `done`. -/
theorem strictSave_not_counted (app : AppState) (form : FormState) (now : String)
    (hok : (saveCurrent app form now).2 = .ok) :
    ∃ rec : RatingRecord,
      findRecord (makeKey (app.dataset.getD app.index defaultItem) app.index)
        ((saveCurrent app form now).1).state.ratingsById = some rec ∧
      rec.isComplete = none ∧
      completedAt ((saveCurrent app form now).1).state.ratingsById
        (makeKey (app.dataset.getD app.index defaultItem) app.index) = false ∧
      (updateProgress [app.dataset.getD app.index defaultItem] app.index
        ((saveCurrent app form now).1).state.ratingsById).done = 0 := by
  by_cases hlen : app.dataset.length = 0
  · have : (saveCurrent app form now).2 = .err "No dataset" := by simp [saveCurrent, hlen]
    rw [this] at hok
    exact absurd hok (by simp)
  · cases hv : validate form.tooShort (getFormValues form) with
    | err m =>
      have : (saveCurrent app form now).2 = .err m := by simp [saveCurrent, hlen, hv]
      rw [this] at hok
      exact absurd hok (by simp)
    | ok =>
      simp only [saveCurrent, hlen, if_false, hv, saveState]
      refine ⟨_, findRecord_upsert_self _ _ _, rfl, ?_, ?_⟩
      · simp [completedAt, findRecord_upsert_self]
      · simp [updateProgress, progressLoop, completedAt, findRecord_upsert_self]

/-- C9 witness: a valid strict save at a concrete one-item dataset leaves
the item uncounted by the progress computation. -/
theorem strictSave_not_counted_witness :
    ∃ rec : RatingRecord,
      findRecord (makeKey ((AppState.mk [⟨some "1", none, .nul, .str "a", []⟩] 0 ⟨[], ""⟩
        none).dataset.getD 0 defaultItem) 0)
        ((saveCurrent ⟨[⟨some "1", none, .nul, .str "a", []⟩], 0, ⟨[], ""⟩, none⟩
          ⟨"1", "p", "", false, false, false, false⟩ "t").1).state.ratingsById = some rec ∧
      rec.isComplete = none ∧
      completedAt ((saveCurrent ⟨[⟨some "1", none, .nul, .str "a", []⟩], 0, ⟨[], ""⟩, none⟩
          ⟨"1", "p", "", false, false, false, false⟩ "t").1).state.ratingsById
        (makeKey ((AppState.mk [⟨some "1", none, .nul, .str "a", []⟩] 0 ⟨[], ""⟩
          none).dataset.getD 0 defaultItem) 0) = false ∧
      (updateProgress [(AppState.mk [⟨some "1", none, .nul, .str "a", []⟩] 0 ⟨[], ""⟩
          none).dataset.getD 0 defaultItem] 0
        ((saveCurrent ⟨[⟨some "1", none, .nul, .str "a", []⟩], 0, ⟨[], ""⟩, none⟩
          ⟨"1", "p", "", false, false, false, false⟩ "t").1).state.ratingsById).done = 0 :=
  strictSave_not_counted ⟨[⟨some "1", none, .nul, .str "a", []⟩], 0, ⟨[], ""⟩, none⟩
    ⟨"1", "p", "", false, false, false, false⟩ "t" (by decide)

end LabellingTool
